import Mathlib

/-!
Shallow embedding of `src/app.js`: a minimal Node HTTP server with four
route variants (`/`, `/health`, `/info`, not-found), permissive CORS
headers, a SIGTERM graceful-shutdown handler, and a self-test mode.

Ambient runtime values the handler reads (clock, uptime, platform, ...)
are collected in a `World` record; the handler is a pure function of the
configuration, the world and the request.
-/

namespace App

/-- JSON values as produced by the handler: strings, numbers and objects
(`JSON.stringify` of object literals whose leaves are strings and numbers,
plus the nested `memory_usage` object). -/
inductive Json : Type where
  | str : String → Json
  | num : Rat → Json
  | obj : List (String × Json) → Json

/-- Top-level keys of a JSON object, in order (empty for non-objects). -/
def Json.keys : Json → List String
  | .obj kvs => kvs.map Prod.fst
  | _ => []

/-- Field lookup in a JSON object (`undefined`, i.e. `none`, otherwise). -/
def Json.get : Json → String → Option Json
  | .obj kvs, k => kvs.lookup k
  | _, _ => none

/-- JavaScript truthiness of a JSON value: empty string and zero are falsy. -/
def Json.truthy : Json → Bool
  | .str s => s != ""
  | .num n => if n = 0 then false else true
  | .obj _ => true

/-- Truthiness of a possibly-missing field (`undefined` is falsy). -/
def truthyOpt : Option Json → Bool
  | some j => j.truthy
  | none => false

/-- `field === s` for a string field, as `assert.strictEqual` compares it. -/
def isStrField (j : Json) (k s : String) : Bool :=
  match j.get k with
  | some (.str t) => t == s
  | _ => false

/-- `typeof field === number` for a field. -/
def isNumField (j : Json) (k : String) : Bool :=
  match j.get k with
  | some (.num _) => true
  | _ => false

/-- Configured port: `process.env.PORT || 3000`. An unset or empty (falsy)
`PORT` yields the default; any other string, including `"0"`, is kept. The
numeric default is rendered as the string `"3000"`. -/
def portConfig : Option String → String
  | none => "3000"
  | some s => if s = "" then "3000" else s

/-- Configured environment name: `process.env.NODE_ENV` with the default
value `development` when unset or empty (falsy). -/
def environmentConfig : Option String → String
  | none => "development"
  | some s => if s = "" then "development" else s

/-- Ambient runtime values read while handling one request. `timestamp`
models the value of `new Date().toISOString()` during the request (the
handler reads the clock up to twice per request; both reads are modelled
by this one value). `uptime` is `process.uptime()`, `nodeVersion` is
`process.version`, `platform` is `process.platform`, `arch` is
`process.arch`, `memoryUsage` is `process.memoryUsage()` and `pid` is
`process.pid`. -/
structure World where
  timestamp : String
  uptime : Rat
  nodeVersion : String
  platform : String
  arch : String
  memoryUsage : Json
  pid : Nat

/-- An incoming HTTP request as the handler sees it: `req.url`,
`req.method` and the user-agent header. -/
structure Request where
  url : String
  method : String
  userAgent : String

/-- A response: status code, headers set via `res.setHeader`, and a body. -/
inductive Body : Type where
  | html : String → Body
  | json : Json → Body

structure Response where
  statusCode : Nat
  headers : List (String × String)
  body : Body

/-- Value of a response header (the handler never sets a header twice). -/
def Response.header (r : Response) (k : String) : Option String :=
  r.headers.lookup k

/-- Characters of `url.parse(u, true).pathname` for a path-style request
url: everything before the first `?` (query) or `#` (fragment). -/
def pathnameChars : List Char → List Char
  | [] => []
  | c :: cs => if c = '?' ∨ c = '#' then [] else c :: pathnameChars cs

def pathnameOf (u : String) : String :=
  String.mk (pathnameChars u.data)

/-- The three CORS headers set on every response (lines 14-16). -/
def corsHeaders : List (String × String) :=
  [("Access-Control-Allow-Origin", "*"),
   ("Access-Control-Allow-Methods", "GET, POST, PUT, DELETE"),
   ("Access-Control-Allow-Headers", "Content-Type")]

/-- The root page template up to the `${environment}` interpolation. -/
def rootHtmlPre : String :=
  "\n        <!DOCTYPE html>\n        <html>\n        <head>\n          <title>DevOps Lab 2025</title>\n          <style>\n            body \x7b font-family: Arial, sans-serif; max-width: 800px; margin: 50px auto; padding: 20px; \x7d\n            .header \x7b background: linear-gradient(135deg, #667eea 0%, #764ba2 100%); color: white; padding: 20px; border-radius: 8px; \x7d\n            .endpoint \x7b background: #f8f9fa; padding: 15px; margin: 10px 0; border-radius: 5px; border-left: 4px solid #007bff; \x7d\n          </style>\n        </head>\n        <body>\n          <div class=\"header\">\n            <h1>I\x27m Getting Better at DevOps, Yay!</h1>\n            <p>Modern Node.js application with CI/CD pipeline</p>\n          </div>\n          <h2>Available Endpoints:</h2>\n          <div class=\"endpoint\">\n            <strong>GET /</strong> - This welcome page\n          </div>\n          <div class=\"endpoint\">\n            <strong>GET /health</strong> - Health check (JSON)\n          </div>\n          <div class=\"endpoint\">\n            <strong>GET /info</strong> - System information\n          </div>\n          <p>Environment: <strong>"

/-- The root page template between the two interpolations. -/
def rootHtmlMid : String :=
  "</strong></p>\n          <p>Server time: <strong>"

/-- The root page template after the `${timestamp}` interpolation. -/
def rootHtmlPost : String :=
  "</strong></p>\n        </body>\n        </html>\n      "

/-- The body sent for `/` (lines 23-53), a template literal interpolating
the environment name and the request timestamp. -/
def rootHtml (environment timestamp : String) : String :=
  rootHtmlPre ++ environment ++ rootHtmlMid ++ timestamp ++ rootHtmlPost

/-- The JSON body sent for `/health` (lines 59-66). -/
def healthBody (environment : String) (w : World) : Json :=
  .obj [("status", .str "healthy"),
        ("timestamp", .str w.timestamp),
        ("uptime", .num w.uptime),
        ("environment", .str environment),
        ("version", .str "1.0.0"),
        ("node_version", .str w.nodeVersion)]

/-- The JSON body sent for `/info` (lines 72-79). -/
def infoBody (environment : String) (w : World) : Json :=
  .obj [("platform", .str w.platform),
        ("architecture", .str w.arch),
        ("node_version", .str w.nodeVersion),
        ("memory_usage", w.memoryUsage),
        ("environment", .str environment),
        ("pid", .num (w.pid : Rat))]

/-- The JSON body sent for unmatched paths (lines 85-89). -/
def notFoundBody (pathname timestamp : String) : Json :=
  .obj [("error", .str "Not Found"),
        ("message", .str ("Route " ++ pathname ++ " not found")),
        ("timestamp", .str timestamp)]

/-- The request handler (lines 7-91): parse the pathname, set the CORS
headers, then dispatch on the pathname alone. -/
def handleRequest (environment : String) (w : World) (req : Request) : Response :=
  let pathname := pathnameOf req.url
  if pathname = "/" then
    ⟨200, corsHeaders ++ [("Content-Type", "text/html")],
     .html (rootHtml environment w.timestamp)⟩
  else if pathname = "/health" then
    ⟨200, corsHeaders ++ [("Content-Type", "application/json")],
     .json (healthBody environment w)⟩
  else if pathname = "/info" then
    ⟨200, corsHeaders ++ [("Content-Type", "application/json")],
     .json (infoBody environment w)⟩
  else
    ⟨404, corsHeaders ++ [("Content-Type", "application/json")],
     .json (notFoundBody pathname w.timestamp)⟩

/-! ## Graceful shutdown (lines 94-100)

The SIGTERM handler calls `server.close(cb)` — the server stops
accepting new connections — and the callback, which Node fires once every
in-flight connection has finished, calls `process.exit(0)`. We model the
lifecycle of the server as a labelled transition system; the `closeCallback`
guard (close requested, no longer accepting, no in-flight connections)
encodes when Node fires the close callback. -/

structure ServerState where
  accepting : Bool
  inflight : Nat
  closeRequested : Bool
  exited : Option Nat

/-- The running server before any signal: accepting, nothing exited. -/
def initialState : ServerState :=
  ⟨true, 0, false, none⟩

/-- One event of the server lifecycle. `sigterm` is the handler at lines
94-100 up to the `server.close` call; `closeCallback` is its callback,
containing the only `process.exit` of server mode, with exit code 0. -/
inductive Step : ServerState → ServerState → Prop where
  | connect (s : ServerState) :
      s.accepting = true → s.exited = none →
      Step s { s with inflight := s.inflight + 1 }
  | finish (s : ServerState) :
      0 < s.inflight → s.exited = none →
      Step s { s with inflight := s.inflight - 1 }
  | sigterm (s : ServerState) :
      s.exited = none → s.closeRequested = false →
      Step s { s with accepting := false, closeRequested := true }
  | closeCallback (s : ServerState) :
      s.closeRequested = true → s.accepting = false → s.inflight = 0 →
      s.exited = none →
      Step s { s with exited := some 0 }

/-- Lifecycle states reachable from the running server. -/
def Reachable (s : ServerState) : Prop :=
  Relation.ReflTransGen Step initialState s

/-! ## Self-test mode (lines 112-175)

`node app.js test` runs: a math assertion (always true), then a real GET
to `/health` on the ephemeral port of the server itself, then a GET to
`/info`. The HTTP outcome of each stage is either a network error message
or a status code with the parsed JSON body (since the requests hit the
handler of this same server, a successful body is the JSON body built by
the handler, so serialising and re-parsing is the identity in the model).
The model returns the process exit code together with the lines printed
via console.log or console.error. The second `http.get` (line 144) has no
error listener: a network error there raises an unhandled error event,
which crashes the process with the Node uncaught-exception exit code 1
and no stage-failure line from the test code. -/

/-- Message of the first failing `/health` assertion (lines 136-139), if any. -/
def healthAssertError (status : Nat) (body : Json) : Option String :=
  if status ≠ 200 then some "Health endpoint should return 200"
  else if ¬ isStrField body "status" "healthy" then
    some "Health status should be healthy"
  else if ¬ truthyOpt (body.get "timestamp") then some "Should have timestamp"
  else if ¬ isNumField body "uptime" then some "Uptime should be a number"
  else none

/-- Message of the first failing `/info` assertion (lines 150-151), if any. -/
def infoAssertError (status : Nat) (body : Json) : Option String :=
  if status ≠ 200 then some "Info endpoint should return 200"
  else if ¬ truthyOpt (body.get "platform") then some "Should have platform info"
  else none

/-- Outcome of one outbound self-test request: a network error message, or
the response status code with the parsed JSON body. -/
def Outcome : Type := Except String (Nat × Json)

/-- The self-test run (lines 112-175) as a function of the two request
outcomes: the resulting process exit code and the printed lines. -/
def selfTest (health info : Outcome) : Nat × List String :=
  let log0 := ["🧪 Running tests...", "✅ Math test passed"]
  match health with
  | .error msg => (1, log0 ++ ["❌ HTTP request failed: " ++ msg])
  | .ok (st, body) =>
    match healthAssertError st body with
    | some msg => (1, log0 ++ ["❌ Health endpoint test failed: " ++ msg])
    | none =>
      let log1 := log0 ++ ["✅ Health endpoint test passed"]
      match info with
      | .error _ => (1, log1)
      | .ok (st2, body2) =>
        match infoAssertError st2 body2 with
        | some msg => (1, log1 ++ ["❌ Info endpoint test failed: " ++ msg])
        | none =>
          (0, log1 ++ ["✅ Info endpoint test passed",
                       "🎉 All tests passed successfully!"])

/-- All self-test assertions ran and passed: both requests succeeded and
neither stage produced an assertion error. -/
def allAssertionsPass (health info : Outcome) : Bool :=
  match health, info with
  | .ok (st, b), .ok (st2, b2) =>
    (healthAssertError st b).isNone && (infoAssertError st2 b2).isNone
  | _, _ => false

/-- Numeric port value a string port requests from `server.listen`; Node
coerces a numeric string, and requesting port 0 asks the operating system
for an ephemeral port. -/
def numericPort (p : String) : Option Nat :=
  if p.data ≠ [] ∧ p.data.all Char.isDigit then
    some (p.data.foldl (fun n c => n * 10 + (c.toNat - Char.toNat '0')) 0)
  else none

def requestsEphemeralPort (p : String) : Prop :=
  numericPort p = some 0

/-- A printed line reporting a failed self-test stage (the test code
prefixes every failure diagnostic with the cross-mark character). -/
def isFailureLine (s : String) : Bool :=
  List.isPrefixOf "❌".data s.data

/-- A concrete runtime world used to instantiate theorems. -/
def wExample : World :=
  ⟨"2025-01-01T00:00:00.000Z", 1, "v20.11.1", "linux", "x64",
   Json.obj [("rss", Json.num 100)], 42⟩

/-!  ## Theorems -/

/-- C4: every response, on all four route variants, carries the three
permissive CORS headers set at lines 14-16 before dispatch. -/
theorem cors_headers_on_every_response (environment : String) (w : World)
    (req : Request) :
    (handleRequest environment w req).header "Access-Control-Allow-Origin" =
      some "*" ∧
    (handleRequest environment w req).header "Access-Control-Allow-Methods" =
      some "GET, POST, PUT, DELETE" ∧
    (handleRequest environment w req).header "Access-Control-Allow-Headers" =
      some "Content-Type" := by
  simp only [handleRequest]
  split_ifs <;> exact ⟨rfl, rfl, rfl⟩

/-- C5: the dispatch at line 19 switches on the pathname only, never on
`req.method`, so two requests differing only in HTTP method get the very
same response (status, headers and body). -/
theorem method_never_inspected (environment : String) (w : World)
    (u m₁ m₂ a : String) :
    handleRequest environment w ⟨u, m₁, a⟩ = handleRequest environment w ⟨u, m₂, a⟩ :=
  rfl

/-- Appending `?query` to a url never changes the parsed pathname: the
scan stops at the first `?` either way. -/
theorem pathnameChars_append_query (xs q : List Char) :
    pathnameChars (xs ++ '?' :: q) = pathnameChars xs := by
  induction xs with
  | nil => simp [pathnameChars]
  | cons c cs ih =>
    by_cases hc : c = '?' ∨ c = '#' <;>
      simp [pathnameChars, hc, ih]

theorem pathnameOf_append_query (u q : String) :
    pathnameOf (u ++ "?" ++ q) = pathnameOf u := by
  unfold pathnameOf
  rw [show (u ++ "?" ++ q).data = u.data ++ '?' :: q.data by
        simp [String.data_append],
      pathnameChars_append_query]

/-- C10: the response is a function of the parsed pathname alone; the
query string (everything from the first `?` on) is dropped by
`url.parse(req.url, true).pathname` and never consulted. -/
theorem query_string_ignored (environment : String) (w : World)
    (u q m a : String) :
    handleRequest environment w ⟨u ++ "?" ++ q, m, a⟩ =
      handleRequest environment w ⟨u, m, a⟩ := by
  unfold handleRequest
  rw [pathnameOf_append_query]

/-- C9: with `PORT=0` the configured port is the string `"0"` (the string
is truthy, so `|| 3000` does not substitute the default), `server.listen`
is asked for numeric port 0 — an OS-assigned ephemeral port — and `GET /`
is answered with status 200 and HTML content-type. -/
theorem port_zero_scenario (environment : String) (w : World) (m a : String) :
    portConfig (some "0") = "0" ∧
    portConfig (some "0") ≠ "3000" ∧
    requestsEphemeralPort (portConfig (some "0")) ∧
    (handleRequest environment w ⟨"/", m, a⟩).statusCode = 200 ∧
    (handleRequest environment w ⟨"/", m, a⟩).header "Content-Type" =
      some "text/html" :=
  ⟨rfl, by decide, by unfold requestsEphemeralPort; decide, rfl, rfl⟩

/-- C1: any request whose parsed pathname is none of `/`, `/health`,
`/info` falls to the default case: status 404, JSON content-type, and a
body whose `error` field is `"Not Found"`, whose `message` field contains
the requested pathname, and which has a `timestamp` field. -/
theorem notFound_route (environment : String) (w : World) (req : Request)
    (h₁ : pathnameOf req.url ≠ "/") (h₂ : pathnameOf req.url ≠ "/health")
    (h₃ : pathnameOf req.url ≠ "/info") :
    (handleRequest environment w req).statusCode = 404 ∧
    (handleRequest environment w req).header "Content-Type" =
      some "application/json" ∧
    (handleRequest environment w req).body =
      .json (notFoundBody (pathnameOf req.url) w.timestamp) ∧
    (notFoundBody (pathnameOf req.url) w.timestamp).get "error" =
      some (.str "Not Found") ∧
    (∃ m, (notFoundBody (pathnameOf req.url) w.timestamp).get "message" =
      some (.str m) ∧ (pathnameOf req.url).data <:+: m.data) ∧
    (notFoundBody (pathnameOf req.url) w.timestamp).get "timestamp" =
      some (.str w.timestamp) := by
  simp only [handleRequest]
  rw [if_neg h₁, if_neg h₂, if_neg h₃]
  refine ⟨rfl, rfl, rfl, rfl, ⟨"Route " ++ pathnameOf req.url ++ " not found",
    rfl, "Route ".data, " not found".data, ?_⟩, rfl⟩
  simp [String.data_append]

theorem notFound_route_witness :
    (handleRequest "development" wExample ⟨"/does-not-exist", "GET", "curl"⟩).statusCode
      = 404 ∧
    (notFoundBody (pathnameOf "/does-not-exist") wExample.timestamp).get "error" =
      some (.str "Not Found") :=
  ⟨(notFound_route "development" wExample ⟨"/does-not-exist", "GET", "curl"⟩
      (by decide) (by decide) (by decide)).1,
   (notFound_route "development" wExample ⟨"/does-not-exist", "GET", "curl"⟩
      (by decide) (by decide) (by decide)).2.2.2.1⟩

/-- C2: a request parsed to `/health` gets status 200, JSON content-type,
and a body with exactly the keys status, timestamp, uptime, environment,
version, node_version; status is `"healthy"`, the timestamp is the
request-time clock reading, uptime is `process.uptime()` (nonnegative by
the runtime), environment is the configured name, version is the fixed
`"1.0.0"`, and node_version is the runtime version string. -/
theorem health_route (environment : String) (w : World) (req : Request)
    (hp : pathnameOf req.url = "/health") (hu : 0 ≤ w.uptime) :
    (handleRequest environment w req).statusCode = 200 ∧
    (handleRequest environment w req).header "Content-Type" =
      some "application/json" ∧
    (handleRequest environment w req).body = .json (healthBody environment w) ∧
    (healthBody environment w).keys =
      ["status", "timestamp", "uptime", "environment", "version", "node_version"] ∧
    (healthBody environment w).get "status" = some (.str "healthy") ∧
    (healthBody environment w).get "timestamp" = some (.str w.timestamp) ∧
    (∃ u, (healthBody environment w).get "uptime" = some (.num u) ∧ 0 ≤ u) ∧
    (healthBody environment w).get "environment" = some (.str environment) ∧
    (healthBody environment w).get "version" = some (.str "1.0.0") ∧
    (healthBody environment w).get "node_version" = some (.str w.nodeVersion) := by
  simp only [handleRequest, hp, if_true]
  exact ⟨rfl, rfl, rfl, rfl, rfl, rfl, ⟨w.uptime, rfl, hu⟩, rfl, rfl, rfl⟩

theorem health_route_witness :
    (handleRequest "development" wExample ⟨"/health", "GET", "curl"⟩).statusCode
      = 200 ∧
    (healthBody "development" wExample).get "status" = some (.str "healthy") :=
  ⟨(health_route "development" wExample ⟨"/health", "GET", "curl"⟩
      (by decide) (by decide)).1,
   (health_route "development" wExample ⟨"/health", "GET", "curl"⟩
      (by decide) (by decide)).2.2.2.2.1⟩

/-- C3: a request parsed to `/info` gets status 200, JSON content-type,
and a body with exactly the keys platform, architecture, node_version,
memory_usage, environment, pid; the platform field is present and
non-empty (it is `process.platform`, non-empty by the runtime), and the
key list is the same on every call, for every world. -/
theorem info_route (environment : String) (w : World) (req : Request)
    (hp : pathnameOf req.url = "/info") (hplat : w.platform ≠ "") :
    (handleRequest environment w req).statusCode = 200 ∧
    (handleRequest environment w req).header "Content-Type" =
      some "application/json" ∧
    (handleRequest environment w req).body = .json (infoBody environment w) ∧
    (infoBody environment w).keys =
      ["platform", "architecture", "node_version", "memory_usage",
       "environment", "pid"] ∧
    (∃ p, (infoBody environment w).get "platform" = some (.str p) ∧ p ≠ "") ∧
    (∀ e₂ w₂, (infoBody e₂ w₂).keys = (infoBody environment w).keys) := by
  simp only [handleRequest, hp, if_true]
  exact ⟨rfl, rfl, rfl, rfl, ⟨w.platform, rfl, hplat⟩, fun e₂ w₂ => rfl⟩

theorem info_route_witness :
    (handleRequest "development" wExample ⟨"/info", "GET", "curl"⟩).statusCode
      = 200 ∧
    (infoBody "development" wExample).keys =
      ["platform", "architecture", "node_version", "memory_usage",
       "environment", "pid"] :=
  ⟨(info_route "development" wExample ⟨"/info", "GET", "curl"⟩
      (by decide) (by decide)).1,
   (info_route "development" wExample ⟨"/info", "GET", "curl"⟩
      (by decide) (by decide)).2.2.2.1⟩

/-- C6: a request parsed to `/` gets status 200, HTML content-type, and
the static page body, which interpolates the configured environment name
and the request-time timestamp (both occur in the page text). -/
theorem root_route (environment : String) (w : World) (req : Request)
    (hp : pathnameOf req.url = "/") :
    (handleRequest environment w req).statusCode = 200 ∧
    (handleRequest environment w req).header "Content-Type" = some "text/html" ∧
    (handleRequest environment w req).body =
      .html (rootHtml environment w.timestamp) ∧
    environment.data <:+: (rootHtml environment w.timestamp).data ∧
    w.timestamp.data <:+: (rootHtml environment w.timestamp).data := by
  simp only [handleRequest, hp, if_true]
  exact ⟨by trivial, by trivial, by trivial,
    ⟨rootHtmlPre.data, (rootHtmlMid ++ w.timestamp ++ rootHtmlPost).data,
      by simp [rootHtml, String.data_append]⟩,
    ⟨(rootHtmlPre ++ environment ++ rootHtmlMid).data, rootHtmlPost.data,
      by simp [rootHtml, String.data_append]⟩⟩

theorem root_route_witness :
    (handleRequest "development" wExample ⟨"/", "GET", "curl"⟩).statusCode = 200 ∧
    (handleRequest "development" wExample ⟨"/", "GET", "curl"⟩).header
      "Content-Type" = some "text/html" :=
  ⟨(root_route "development" wExample ⟨"/", "GET", "curl"⟩ (by decide)).1,
   (root_route "development" wExample ⟨"/", "GET", "curl"⟩ (by decide)).2.1⟩

/-- Appending to a failure line keeps it a failure line. -/
theorem isFailureLine_append (pre msg : String) (h : isFailureLine pre = true) :
    isFailureLine (pre ++ msg) = true := by
  simp only [isFailureLine, List.isPrefixOf_iff_prefix] at h ⊢
  rw [String.data_append]
  exact h.trans (List.prefix_append _ _)

/-- C7 counterexample: when the `/health` stage passes but the `/info`
request fails at the network level, the error event of the second
`http.get` (line 144) has no listener; the process crashes with exit code
1 and the test code prints no stage-failure line, contradicting the
claim that any network failure prints which stage failed. -/
theorem selfTest_info_network_failure :
    (selfTest (Except.ok (200, healthBody "development" wExample))
        (Except.error "connect ECONNREFUSED 127.0.0.1:45301")).fst = 1 ∧
    ((selfTest (Except.ok (200, healthBody "development" wExample))
        (Except.error "connect ECONNREFUSED 127.0.0.1:45301")).snd.all
      fun s => !(isFailureLine s)) = true := by
  constructor <;> rfl

/-- C7 (amended): the self-test exits 0 iff both requests succeed and
every assertion passes; the exit code is always 0 or 1; and every failing
run either prints a stage-failure line or is a network failure of the
`/info` request reached after the `/health` stage passed (that error
event has no listener, so the process crashes without a stage line). -/
theorem selfTest_exit_code (health info : Outcome) :
    ((selfTest health info).fst = 0 ↔ allAssertionsPass health info = true) ∧
    ((selfTest health info).fst = 0 ∨ (selfTest health info).fst = 1) ∧
    (allAssertionsPass health info = true ∨
      (∃ s ∈ (selfTest health info).snd, isFailureLine s = true) ∨
      (∃ msg st b, health = Except.ok (st, b) ∧ healthAssertError st b = none ∧
        info = Except.error msg)) := by
  rcases health with msg | ⟨st, b⟩
  · refine ⟨by simp [selfTest, allAssertionsPass], by simp [selfTest],
      Or.inr (Or.inl ⟨"❌ HTTP request failed: " ++ msg, ?_,
        isFailureLine_append _ _ (by decide)⟩)⟩
    simp [selfTest]
  · rcases hh : healthAssertError st b with _ | msg
    · rcases info with imsg | ⟨st₂, b₂⟩
      · exact ⟨by simp [selfTest, hh, allAssertionsPass],
          by simp [selfTest, hh],
          Or.inr (Or.inr ⟨imsg, st, b, rfl, hh, rfl⟩)⟩
      · rcases hi : infoAssertError st₂ b₂ with _ | msg₂
        · exact ⟨by simp [selfTest, hh, hi, allAssertionsPass],
            by simp [selfTest, hh, hi], Or.inl (by simp [allAssertionsPass, hh, hi])⟩
        · refine ⟨by simp [selfTest, hh, hi, allAssertionsPass],
            by simp [selfTest, hh, hi],
            Or.inr (Or.inl ⟨"❌ Info endpoint test failed: " ++ msg₂, ?_,
              isFailureLine_append _ _ (by decide)⟩)⟩
          simp [selfTest, hh, hi]
    · refine ⟨by cases info <;> simp [selfTest, hh, allAssertionsPass],
        by simp [selfTest, hh],
        Or.inr (Or.inl ⟨"❌ Health endpoint test failed: " ++ msg, ?_,
          isFailureLine_append _ _ (by decide)⟩)⟩
      simp [selfTest, hh]

/-- Invariant of the server lifecycle: once close has been requested the
server is no longer accepting, and any exited state exited with code 0,
not accepting, with no in-flight connection, after close was requested. -/
theorem shutdown_invariant (s : ServerState) (h : Reachable s) :
    (s.closeRequested = true → s.accepting = false) ∧
    (∀ c, s.exited = some c →
      c = 0 ∧ s.accepting = false ∧ s.inflight = 0 ∧ s.closeRequested = true) := by
  induction h with
  | refl => exact ⟨by simp [initialState], by simp [initialState]⟩
  | tail _ step ih =>
    cases step with
    | connect ha he =>
      exact ⟨fun hc => ih.1 hc, fun c hc => by simp [he] at hc⟩
    | finish hpos he =>
      exact ⟨fun hc => ih.1 hc, fun c hc => by simp [he] at hc⟩
    | sigterm he hcr =>
      exact ⟨fun _ => rfl, fun c hx => by simp [he] at hx⟩
    | closeCallback hcr ha hin he =>
      refine ⟨fun _ => ha, fun c hx => ?_⟩
      simp at hx
      exact ⟨hx.symm, ha, hin, hcr⟩

/-- C8: on SIGTERM the handler (lines 94-100) first calls `server.close`
(the server stops accepting) and exits only from the close callback, which
fires once no connection is in flight: every reachable exited state has
exit code 0, is not accepting, and has no in-flight connection; and the
exiting step itself starts from a state that already stopped accepting
and whose connections have all closed. -/
theorem sigterm_graceful_shutdown :
    (∀ s c, Reachable s → s.exited = some c →
      c = 0 ∧ s.accepting = false ∧ s.inflight = 0 ∧ s.closeRequested = true) ∧
    (∀ s t, Step s t → s.exited = none → t.exited = some 0 →
      s.accepting = false ∧ s.inflight = 0 ∧ s.closeRequested = true) := by
  refine ⟨fun s c h hx => (shutdown_invariant s h).2 c hx,
    fun s t st hs ht => ?_⟩
  cases st with
  | connect ha he => simp [hs] at ht
  | finish hpos he => simp [hs] at ht
  | sigterm he hcr => simp [hs] at ht
  | closeCallback hcr ha hin he => exact ⟨ha, hin, hcr⟩

theorem sigterm_graceful_shutdown_witness :
    (0 : Nat) = 0 ∧ (ServerState.mk false 0 true (some 0)).accepting = false ∧
    (ServerState.mk false 0 true (some 0)).inflight = 0 ∧
    (ServerState.mk false 0 true (some 0)).closeRequested = true :=
  sigterm_graceful_shutdown.1 (ServerState.mk false 0 true (some 0)) 0
    (Relation.ReflTransGen.tail
      (Relation.ReflTransGen.single (Step.sigterm initialState rfl rfl))
      (Step.closeCallback ⟨false, 0, true, none⟩ rfl rfl rfl rfl))
    rfl

end App
